import Mathlib

/-!
Verification of the order-submission pipeline of the BS MONTERS checkout
repository: schema validator (`src/lib/types.ts`), retry wrapper
(`src/lib/utils.ts`), ledger writer and duplicate guard
(`src/lib/services/googleSheets.ts`), notifier (`src/lib/services/email.ts`)
and the orchestrator `POST` handler (`src/app/api/submit-order/route.ts`).

The embedding is shallow: each TypeScript function becomes a Lean function
over explicit data.  External effects are made explicit parameters:

* environment variables become an `Env` record of `Option String`s;
* the spreadsheet becomes a `Sheet` (list of rows of cells); an unreachable
  store (a query or append that throws) is modelled as `none`;
* transient per-attempt failures of the two integrations become oracles
  `Nat → Bool` (`true` at `k` means attempt `k` throws);
* `crypto.randomUUID()` and `new Date().toISOString()` become the explicit
  parameters `genUuid` / `now` of the run.

Request bodies are modelled as well-typed records (`RawOrder`); zod's
rejection of ill-typed or absent required fields is orthogonal to every
claim treated here.  zod issue lists are modelled by their field paths.
-/

namespace BS

/-- Delivery option enum from `src/lib/types.ts` (`z.enum(['office','home'])`). -/
inductive DeliveryOption where
  | office
  | home
deriving Repr, DecidableEq

/-- A raw, untrusted order submission (the parsed JSON body).  Numbers are
modelled as rationals (`totalPrice`) and integers; strings as `String`. -/
structure RawOrder where
  clientRequestId : Option String
  fullName : String
  phone : String
  wilayaId : Option Int
  wilayaNameAr : String
  baladiya : String
  baladiyaNameAr : String
  watchModelId : Int
  deliveryOption : String
  totalPrice : Rat
deriving Repr, DecidableEq

/-- The validated order (`OrderInput = z.infer<typeof OrderSchema>` in
`src/lib/types.ts`): string fields carry the `.trim()`ed values, the
`clientRequestId` default has been applied. -/
structure OrderInput where
  clientRequestId : String
  fullName : String
  phone : String
  wilayaId : Option Int
  wilayaNameAr : String
  baladiya : String
  baladiyaNameAr : String
  watchModelId : Int
  deliveryOption : DeliveryOption
  totalPrice : Rat
deriving Repr, DecidableEq

/-- Characters of a string with leading and trailing whitespace removed:
the semantics of JavaScript `String.prototype.trim` (and of the zod
`.trim()` transform). -/
def trimChars (cs : List Char) : List Char :=
  ((cs.dropWhile Char.isWhitespace).reverse.dropWhile Char.isWhitespace).reverse

/-- JavaScript `.trim()` on strings. -/
def trimString (s : String) : String :=
  ⟨trimChars s.data⟩

/-- Split a character list at a separator character (used for the UUID
group structure). -/
def splitOnCharAux (sep : Char) : List Char → List Char → List (List Char)
  | [], acc => [acc.reverse]
  | c :: rest, acc =>
      if c = sep then acc.reverse :: splitOnCharAux sep rest []
      else splitOnCharAux sep rest (c :: acc)

/-- Split a string at a separator character. -/
def splitOnChar (sep : Char) (s : String) : List (List Char) :=
  splitOnCharAux sep s.data []

/-- Hex digit test used by the UUID format check. -/
def isHexDigit (c : Char) : Bool :=
  c.isDigit || ('a' ≤ c && c ≤ 'f') || ('A' ≤ c && c ≤ 'F')

/-- zod's `.uuid()` format check: five dash-separated hex groups of sizes
8-4-4-4-12. -/
def uuidOk (s : String) : Bool :=
  match splitOnChar '-' s with
  | [a, b, c, d, e] =>
      a.length == 8 && b.length == 4 && c.length == 4 && d.length == 4 &&
      e.length == 12 && (a ++ b ++ c ++ d ++ e).all isHexDigit
  | _ => false

/-- Tail of the phone pattern: one digit in `[5-7]` followed by exactly
eight digits. -/
def phoneRegexTail (cs : List Char) : Bool :=
  match cs with
  | c :: rest => ('5' ≤ c && c ≤ '7') && rest.length == 8 && rest.all Char.isDigit
  | [] => false

/-- `ALGERIAN_PHONE_REGEX = /^(\+213|0)[5-7]\d\x7b8\x7d$/` from
`src/lib/types.ts`, as a decidable matcher on the whole string. -/
def algerianPhoneRegexMatch (s : String) : Bool :=
  match s.data with
  | '+' :: '2' :: '1' :: '3' :: rest => phoneRegexTail rest
  | '0' :: rest => phoneRegexTail rest
  | _ => false

/-- The field paths of all zod issues raised by `OrderSchema.safeParse`
(`src/lib/types.ts`).  Note the zod chain `.min(2).max(100).trim()` checks
lengths on the raw string and only then applies the trim transform. -/
def orderIssues (raw : RawOrder) : List String :=
  (match raw.clientRequestId with
   | none => []
   | some cid => if uuidOk cid then [] else ["clientRequestId"]) ++
  (if 2 ≤ raw.fullName.length ∧ raw.fullName.length ≤ 100 then [] else ["fullName"]) ++
  (if algerianPhoneRegexMatch raw.phone then [] else ["phone"]) ++
  (match raw.wilayaId with
   | none => []
   | some n => if 0 < n then [] else ["wilayaId"]) ++
  (if 2 ≤ raw.wilayaNameAr.length then [] else ["wilayaNameAr"]) ++
  (if 1 ≤ raw.baladiya.length then [] else ["baladiya"]) ++
  (if 2 ≤ raw.baladiyaNameAr.length then [] else ["baladiyaNameAr"]) ++
  (if 1 ≤ raw.watchModelId ∧ raw.watchModelId ≤ 10 then [] else ["watchModelId"]) ++
  (if raw.deliveryOption = "office" ∨ raw.deliveryOption = "home" then [] else ["deliveryOption"]) ++
  (if 0 < raw.totalPrice ∧ raw.totalPrice ≤ 1000000 then [] else ["totalPrice"])

/-- Parse of the `deliveryOption` enum value. -/
def parseDelivery (s : String) : Option DeliveryOption :=
  if s = "office" then some .office
  else if s = "home" then some .home
  else none

/-- `safeValidateOrder` from `src/lib/types.ts` (`OrderSchema.safeParse`).
`genUuid` is the value `crypto.randomUUID()` would produce in this run; it
is used only when `clientRequestId` is absent (zod `.default`). -/
def safeValidateOrder (genUuid : String) (raw : RawOrder) :
    Except (List String) OrderInput :=
  match parseDelivery raw.deliveryOption, orderIssues raw with
  | some d, [] =>
      .ok { clientRequestId := raw.clientRequestId.getD genUuid
            fullName := trimString raw.fullName
            phone := trimString raw.phone
            wilayaId := raw.wilayaId
            wilayaNameAr := trimString raw.wilayaNameAr
            baladiya := trimString raw.baladiya
            baladiyaNameAr := trimString raw.baladiyaNameAr
            watchModelId := raw.watchModelId
            deliveryOption := d
            totalPrice := raw.totalPrice }
  | _, issues => .error issues

/-- Pricing constants object from `src/lib/types.ts`. -/
structure Pricing where
  BASE_PRICE : Rat
  ORIGINAL_PRICE : Rat
  DELIVERY_OFFICE : Rat
  DELIVERY_HOME : Rat
deriving Repr, DecidableEq

/-- `PRICING` from `src/lib/types.ts`. -/
def PRICING : Pricing :=
  { BASE_PRICE := 1600
    ORIGINAL_PRICE := 2200
    DELIVERY_OFFICE := 500
    DELIVERY_HOME := 800 }

/-- `calculateTotal` from `src/lib/types.ts`. -/
def calculateTotal (deliveryOption : DeliveryOption) : Rat :=
  PRICING.BASE_PRICE +
    (if deliveryOption = .home then PRICING.DELIVERY_HOME else PRICING.DELIVERY_OFFICE)

/-- `getDeliveryCost` from `src/lib/types.ts`. -/
def getDeliveryCost (deliveryOption : DeliveryOption) : Rat :=
  if deliveryOption = .home then PRICING.DELIVERY_HOME else PRICING.DELIVERY_OFFICE

/-- The environment variables the pipeline reads (`process.env`).  `none`
models an unset variable. -/
structure Env where
  googleSheetId : Option String := none
  sheetsEnabled : Option String := none
  emailEnabled : Option String := none
  vercelUrl : Option String := none
deriving Repr, DecidableEq

/-- `getBaseUrl` from `src/lib/utils/url.ts`. -/
def getBaseUrl (env : Env) : String :=
  match env.vercelUrl with
  | some u => "https://" ++ u
  | none => "http://localhost:3000"

/-- `getWatchImageUrl` from `src/lib/utils/url.ts`. -/
def getWatchImageUrl (env : Env) (watchModelId : Int) : String :=
  getBaseUrl env ++ "/images/watches/" ++ toString watchModelId ++ ".webp"

/-- A spreadsheet cell: the Sheets API stores strings and numbers. -/
inductive Cell where
  | str (s : String)
  | num (q : Rat)
deriving Repr, DecidableEq

/-- Reading a cell back as a string (`String(id)` in the duplicate guard). -/
def cellText : Cell → String
  | .str s => s
  | .num _ => ""

/-- The external spreadsheet: a list of rows of cells.  Row 1 is the header
row when present. -/
abbrev Sheet := List (List Cell)

/-- `HEADER_ROW` from `src/lib/services/googleSheets.ts`. -/
def HEADER_ROW : List Cell :=
  [.str "Order ID", .str "Date", .str "Image Preview", .str "Name", .str "Phone",
   .str "Wilaya", .str "Baladiya", .str "Watch Model", .str "Model Number",
   .str "Quantity", .str "Delivery Type", .str "Total Price", .str "Status"]

/-- `formatOrderRow` from `src/lib/services/googleSheets.ts`.  `now` is the
value `new Date().toISOString()` produces in this run.  The source reads
`orderData.modelNumber` and `orderData.quantity`, which the validated order
of `src/lib/types.ts` never carries, so they take the JavaScript fallbacks
`''` and `1`. -/
def formatOrderRow (env : Env) (now : String) (orderData : OrderInput) : List Cell :=
  [.str orderData.clientRequestId,
   .str now,
   .str ("=IMAGE(\"" ++ getWatchImageUrl env orderData.watchModelId ++ "\")"),
   .str orderData.fullName,
   .str orderData.phone,
   .str orderData.wilayaNameAr,
   .str orderData.baladiyaNameAr,
   .str ("موديل " ++ toString orderData.watchModelId),
   .str "",
   .num 1,
   .str (if orderData.deliveryOption = .home then "منزل" else "مكتب"),
   .num orderData.totalPrice,
   .str "New"]

/-- One pass of the retry loop of `withRetry` (`src/lib/utils.ts`), indexed
by the current `attempt` and structurally by the number `rem` of attempts
still allowed after this one (`rem = maxRetries - attempt` along the loop).
`fn attempt` is the outcome of the `attempt`-th call of the wrapped
operation.  Returns the final outcome, the list of backoff delays waited,
and the number of calls performed. -/
def retryAux (fn : Nat → Except ε α) (baseDelay : Nat) :
    Nat → Nat → Except ε α × List Nat × Nat
  | attempt, 0 =>
      (fn attempt, [], 1)
  | attempt, rem + 1 =>
      match fn attempt with
      | .ok a => (.ok a, [], 1)
      | .error _ =>
          let d := baseDelay * 2 ^ attempt
          let rest := retryAux fn baseDelay (attempt + 1) rem
          (rest.1, d :: rest.2.1, rest.2.2 + 1)

/-- `withRetry` from `src/lib/utils.ts`: up to `maxRetries + 1` calls of the
operation, exponential backoff `baseDelay * 2 ^ attempt` between failed
attempts, the last error rethrown.  The `.ok`/`.error` outcome of attempt
`k` models the promise of the `k`-th call resolving or rejecting. -/
def withRetry (fn : Nat → Except ε α) (maxRetries : Nat) (baseDelay : Nat) :
    Except ε α × List Nat × Nat :=
  retryAux fn baseDelay 0 maxRetries

/-- The result value both integrations resolve with
(`\x7b success, rowNumber?, error? \x7d`). -/
structure IntegrationResult where
  success : Bool
  rowNumber : Option Nat := none
  error : Option String := none
deriving Repr, DecidableEq

/-- `saveOrder` from `src/lib/services/googleSheets.ts`.  The spreadsheet
is threaded explicitly: `store = none` models an unreachable store (every
API call throws), `some sheet` its current rows.  `sheetFails k = true`
means the `k`-th attempt of the retried operation throws before appending
(transient API failure).  On the first successful attempt the code writes
the header row if the sheet is empty (best effort) and appends the order
row.  The returned pair is the JavaScript result object and the store
afterwards. -/
def saveOrder (env : Env) (now : String) (store : Option Sheet)
    (sheetFails : Nat → Bool) (orderData : OrderInput) :
    IntegrationResult × Option Sheet :=
  match env.googleSheetId with
  | none =>
      ({ success := false, error := some "GOOGLE_SHEET_ID environment variable is not set" }, store)
  | some _ =>
      if env.sheetsEnabled = some "false" then
        ({ success := true }, store)
      else
        match store with
        | none =>
            ({ success := false, error := some "The ledger store is unreachable" }, none)
        | some sheet =>
            match (withRetry (fun k => if sheetFails k then .error "Sheets API call failed" else .ok ()) 3 1000).1 with
            | .error e => ({ success := false, error := some e }, some sheet)
            | .ok _ =>
                ({ success := true,
                   rowNumber := some ((if sheet.isEmpty then [HEADER_ROW] else sheet).length + 1) },
                 some ((if sheet.isEmpty then [HEADER_ROW] else sheet) ++
                   [formatOrderRow env now orderData]))

/-- `sendOrderEmail` from `src/lib/services/email.ts`: the operation is
retried with `withRetry(·, 3)`; `emailFails k = true` means the `k`-th
attempt throws (missing SMTP configuration, failed verification or failed
send).  The catch converts an exhausted retry into a structured failure. -/
def sendOrderEmail (emailFails : Nat → Bool) (_orderData : OrderInput) :
    IntegrationResult :=
  match (withRetry (fun k => if emailFails k then .error "SMTP connection verification failed" else .ok ()) 3 1000).1 with
  | .ok _ => { success := true }
  | .error e => { success := false, error := some e }

/-- The trimmed contents of column A from row 2 down (`range A2:A`,
`rows.flat().map(id => String(id).trim())`), as read by the duplicate
guard. -/
def colA (sheet : Sheet) : List String :=
  (sheet.drop 1).map (fun row => trimString (cellText (row.headD (.str ""))))

/-- `checkDuplicateOrder` from `src/lib/services/googleSheets.ts`.
`store = none` models a ledger query that throws (store unreachable); the
surrounding `try/catch` then fails open.  The function never throws: it is
total and returns a `Bool`. -/
def checkDuplicateOrder (env : Env) (store : Option Sheet) (clientRequestId : String) : Bool :=
  match env.googleSheetId with
  | none => false
  | some _ =>
      if env.sheetsEnabled = some "false" then false
      else
        match store with
        | none => false
        | some sheet => (colA sheet).contains clientRequestId

/-- The JSON body of a response of the `POST` handler, together with its
HTTP status. -/
structure PostResponse where
  status : Nat
  success : Bool
  message : Option String := none
  error : Option String := none
  details : Option (List String) := none
  duplicate : Option Bool := none
  clientRequestId : Option String := none
  sheetSaved : Option Bool := none
  emailSent : Option Bool := none
deriving Repr, DecidableEq

/-- `sheetsEnabled` flag of the handler:
`process.env.SHEETS_ENABLED !== 'false'`. -/
def sheetsEnabledB (env : Env) : Bool :=
  !(env.sheetsEnabled == some "false")

/-- `emailEnabled` flag of the handler:
`process.env.EMAIL_ENABLED !== 'false'`. -/
def emailEnabledB (env : Env) : Bool :=
  !(env.emailEnabled == some "false")

/-- The `sheetSaved` flag computed by the handler: the saved result's
`success` when the ledger integration ran, `true` when it was disabled. -/
def sheetFlag (env : Env) (now : String) (store : Option Sheet)
    (sheetFails : Nat → Bool) (orderData : OrderInput) : Bool :=
  if sheetsEnabledB env then (saveOrder env now store sheetFails orderData).1.success
  else true

/-- The `emailSent` flag computed by the handler. -/
def emailFlag (env : Env) (emailFails : Nat → Bool) (orderData : OrderInput) : Bool :=
  if emailEnabledB env then (sendOrderEmail emailFails orderData).success
  else true

/-- The dispatch-and-aggregate tail of the `POST` handler
(`src/app/api/submit-order/route.ts`, after validation and duplicate check):
gate on both integrations disabled, run the enabled ones, and fold the
per-integration outcomes into one response.  `Promise.allSettled` never
observes a rejection because both integrations catch internally, so each
settled result is `fulfilled` with its `success` flag. -/
def postDispatch (env : Env) (now : String) (store : Option Sheet)
    (sheetFails emailFails : Nat → Bool) (orderData : OrderInput) :
    PostResponse × Option Sheet :=
  if !sheetsEnabledB env && !emailEnabledB env then
    ({ status := 500, success := false,
       error := some "جميع خدمات الإشعارات معطلة. يرجى تفعيلها في الإعدادات." }, store)
  else
    if (sheetsEnabledB env && !sheetFlag env now store sheetFails orderData) &&
       (emailEnabledB env && !emailFlag env emailFails orderData) then
      ({ status := 500, success := false,
         error := some "حدث خطأ في معالجة الطلب. يرجى المحاولة مرة أخرى أو الاتصال بالدعم." },
       if sheetsEnabledB env then (saveOrder env now store sheetFails orderData).2 else store)
    else
      ({ status := 200, success := true,
         message := some "✅ تم استلام طلبك بنجاح! سنتصل بك خلال 15 دقيقة لتأكيد الطلب.",
         clientRequestId := some orderData.clientRequestId,
         sheetSaved := some (sheetFlag env now store sheetFails orderData),
         emailSent := some (emailFlag env emailFails orderData) },
       if sheetsEnabledB env then (saveOrder env now store sheetFails orderData).2 else store)

/-- Steps 2 onward of the `POST` handler: duplicate check then dispatch. -/
def postAfterValidation (env : Env) (now : String) (store : Option Sheet)
    (sheetFails emailFails : Nat → Bool) (orderData : OrderInput) :
    PostResponse × Option Sheet :=
  if checkDuplicateOrder env store orderData.clientRequestId then
    ({ status := 409, success := false,
       error := some "تم استلام هذا الطلب مسبقاً. يرجى المحاولة مرة أخرى.",
       duplicate := some true }, store)
  else
    postDispatch env now store sheetFails emailFails orderData

/-- `POST /api/submit-order` (`src/app/api/submit-order/route.ts`) on an
already-parsed JSON body: validate, check duplicates, dispatch the enabled
integrations, aggregate.  Returns the response and the ledger store after
the request. -/
def POST (env : Env) (genUuid now : String) (store : Option Sheet)
    (sheetFails emailFails : Nat → Bool) (body : RawOrder) :
    PostResponse × Option Sheet :=
  match safeValidateOrder genUuid body with
  | .error issues =>
      ({ status := 400, success := false,
         error := some (issues.headD "بيانات غير صحيحة"),
         details := some issues }, store)
  | .ok orderData =>
      postAfterValidation env now store sheetFails emailFails orderData

/-! ### Concrete fixtures used by counterexamples and witnesses -/

/-- A well-formed idempotency token. -/
def sampleUuid : String := "aaaaaaaa-bbbb-4ccc-8ddd-eeeeeeeeeeee"

/-- A well-formed order submission. -/
def sampleBody : RawOrder :=
  { clientRequestId := some sampleUuid
    fullName := "Ahmed Benali"
    phone := "0555123456"
    wilayaId := none
    wilayaNameAr := "Algiers"
    baladiya := "Bab Ezzouar"
    baladiyaNameAr := "Bab Ezzouar"
    watchModelId := 3
    deliveryOption := "home"
    totalPrice := 2400 }

/-- The validated order `sampleBody` parses to. -/
def sampleOrder : OrderInput :=
  { clientRequestId := sampleUuid
    fullName := "Ahmed Benali"
    phone := "0555123456"
    wilayaId := none
    wilayaNameAr := "Algiers"
    baladiya := "Bab Ezzouar"
    baladiyaNameAr := "Bab Ezzouar"
    watchModelId := 3
    deliveryOption := .home
    totalPrice := 2400 }

/-- `sampleBody` with the international form of the same phone number. -/
def sampleBodyIntlPhone : RawOrder := { sampleBody with phone := "+213555123456" }

/-- `sampleBody` with a non-mobile phone prefix. -/
def sampleBodyBadPhone : RawOrder := { sampleBody with phone := "0455123456" }

/-- `sampleBody` with a full name that is one character after trimming. -/
def sampleBodyShortName : RawOrder := { sampleBody with fullName := " a " }

/-- The validated order `sampleBodyShortName` parses to. -/
def sampleOrderShortName : OrderInput := { sampleOrder with fullName := "a" }

/-- `sampleBody` without a client-supplied idempotency token. -/
def sampleBodyNoCid : RawOrder := { sampleBody with clientRequestId := none }

/-- Two distinct values `crypto.randomUUID()` could return on two runs. -/
def genA : String := "aaaaaaaa-1111-4111-8111-111111111111"

/-- See `genA`. -/
def genB : String := "bbbbbbbb-2222-4222-8222-222222222222"

/-- Environment with the ledger configured and the notifier disabled. -/
def envSheetsOnly : Env := { googleSheetId := some "sheet1", emailEnabled := some "false" }

/-- Environment with both integrations enabled and the ledger configured. -/
def envBoth : Env := { googleSheetId := some "sheet1" }

/-- Environment with the ledger disabled and `GOOGLE_SHEET_ID` unset. -/
def envDisabledNoId : Env := { sheetsEnabled := some "false" }

/-- Environment with the ledger disabled but `GOOGLE_SHEET_ID` set. -/
def envDisabledWithId : Env := { googleSheetId := some "sheet1", sheetsEnabled := some "false" }

/-- Attempt oracle under which every attempt of an integration throws. -/
def alwaysFail : Nat → Bool := fun _ => true

/-- Attempt oracle under which every attempt succeeds. -/
def neverFail : Nat → Bool := fun _ => false

/-- The phone field of a validation result, when it succeeded. -/
def validatedPhone : Except (List String) OrderInput → Option String
  | .ok o => some o.phone
  | .error _ => none

/-- The fullName field of a validation result, when it succeeded. -/
def validatedFullName : Except (List String) OrderInput → Option String
  | .ok o => some o.fullName
  | .error _ => none

/-- The clientRequestId field of a validation result, when it succeeded. -/
def validatedCid : Except (List String) OrderInput → Option String
  | .ok o => some o.clientRequestId
  | .error _ => none

/-! ### Helper lemmas -/

theorem sheetsEnabledB_true_iff (env : Env) :
    sheetsEnabledB env = true ↔ env.sheetsEnabled ≠ some "false" := by
  unfold sheetsEnabledB
  constructor
  · intro h heq
    simp [heq] at h
  · intro h
    simp [h]

theorem emailEnabledB_true_iff (env : Env) :
    emailEnabledB env = true ↔ env.emailEnabled ≠ some "false" := by
  unfold emailEnabledB
  constructor
  · intro h heq
    simp [heq] at h
  · intro h
    simp [h]

theorem retryAux_calls_pos (fn : Nat → Except ε α) (base : Nat) :
    ∀ rem attempt, 1 ≤ (retryAux fn base attempt rem).2.2 := by
  intro rem
  induction rem with
  | zero => intro attempt; simp [retryAux]
  | succ n _ =>
      intro attempt
      cases h : fn attempt with
      | ok a => simp [retryAux, h]
      | error e => simp [retryAux, h]

theorem retryAux_calls_le (fn : Nat → Except ε α) (base : Nat) :
    ∀ rem attempt, (retryAux fn base attempt rem).2.2 ≤ rem + 1 := by
  intro rem
  induction rem with
  | zero => intro attempt; simp [retryAux]
  | succ n ih =>
      intro attempt
      cases h : fn attempt with
      | ok a => simp [retryAux, h]
      | error e =>
          simp only [retryAux, h]
          exact Nat.succ_le_succ (ih (attempt + 1))

theorem retryAux_delays (fn : Nat → Except ε α) (base : Nat) :
    ∀ rem attempt, (retryAux fn base attempt rem).2.1 =
      (List.range ((retryAux fn base attempt rem).2.2 - 1)).map
        (fun k => base * 2 ^ (attempt + k)) := by
  intro rem
  induction rem with
  | zero => intro attempt; simp [retryAux]
  | succ n ih =>
      intro attempt
      cases h : fn attempt with
      | ok a => simp [retryAux, h]
      | error e =>
          simp only [retryAux, h]
          have hpos := retryAux_calls_pos fn base n (attempt + 1)
          obtain ⟨m, hm⟩ : ∃ m, (retryAux fn base (attempt + 1) n).2.2 = m + 1 :=
            ⟨(retryAux fn base (attempt + 1) n).2.2 - 1, (Nat.succ_pred_eq_of_pos hpos).symm⟩
          rw [ih (attempt + 1), hm]
          simp only [Nat.add_sub_cancel, List.range_succ_eq_map, List.map_cons, List.map_map]
          congr 1
          apply List.map_congr_left
          intro k _
          have h2 : attempt + 1 + k = attempt + (k + 1) := by omega
          rw [Function.comp_apply, h2]

theorem retryAux_last_error (fn : Nat → Except ε α) (base : Nat) :
    ∀ rem attempt, (∀ k, attempt ≤ k → k ≤ attempt + rem → (fn k).isOk = false) →
      (retryAux fn base attempt rem).1 = fn (attempt + rem) := by
  intro rem
  induction rem with
  | zero => intro attempt _; simp [retryAux]
  | succ n ih =>
      intro attempt hall
      have hfail := hall attempt (Nat.le_refl _) (Nat.le_add_right _ _)
      cases h : fn attempt with
      | ok a => rw [h] at hfail; simp [Except.isOk, Except.toBool] at hfail
      | error e =>
          simp only [retryAux, h]
          have := ih (attempt + 1) (fun k hk1 hk2 =>
            hall k (Nat.le_of_succ_le hk1) (by omega))
          rw [this]
          congr 1
          omega

theorem retryAux_failure_pattern (fn fn' : Nat → Except ε α) (base : Nat)
    (hp : ∀ k, (fn k).isOk = (fn' k).isOk) :
    ∀ rem attempt, (retryAux fn base attempt rem).2 = (retryAux fn' base attempt rem).2 := by
  intro rem
  induction rem with
  | zero => intro attempt; simp [retryAux]
  | succ n ih =>
      intro attempt
      have hk := hp attempt
      cases h : fn attempt with
      | ok a =>
          cases h' : fn' attempt with
          | ok b => simp [retryAux, h, h']
          | error e => rw [h, h'] at hk; simp [Except.isOk, Except.toBool] at hk
      | error e =>
          cases h' : fn' attempt with
          | ok b => rw [h, h'] at hk; simp [Except.isOk, Except.toBool] at hk
          | error e' =>
              simp only [retryAux, h, h']
              rw [Prod.ext_iff]
              refine ⟨?_, ?_⟩
              · simp [congrArg Prod.fst (ih (attempt + 1))]
              · simp [congrArg Prod.snd (ih (attempt + 1))]

theorem POST_ok_not_dup (env : Env) (gen now : String) (store : Option Sheet)
    (sf ef : Nat → Bool) (body : RawOrder) (o : OrderInput)
    (hval : safeValidateOrder gen body = .ok o)
    (hdup : checkDuplicateOrder env store o.clientRequestId = false) :
    POST env gen now store sf ef body = postDispatch env now store sf ef o := by
  unfold POST
  rw [hval]
  unfold postAfterValidation
  simp [hdup]

theorem POST_409_of_dup (env : Env) (gen now : String) (store : Option Sheet)
    (sf ef : Nat → Bool) (body : RawOrder) (o : OrderInput)
    (hval : safeValidateOrder gen body = .ok o)
    (hdup : checkDuplicateOrder env store o.clientRequestId = true) :
    (POST env gen now store sf ef body).1.status = 409 ∧
    (POST env gen now store sf ef body).1.duplicate = some true := by
  unfold POST
  rw [hval]
  unfold postAfterValidation
  simp [hdup]

theorem postDispatch_200_of_sheet_success (env : Env) (now : String)
    (store : Option Sheet) (sf ef : Nat → Bool) (o : OrderInput)
    (hen : sheetsEnabledB env = true)
    (hss : sheetFlag env now store sf o = true) :
    (postDispatch env now store sf ef o).1.status = 200 ∧
    (postDispatch env now store sf ef o).1.success = true ∧
    (postDispatch env now store sf ef o).2 =
      (saveOrder env now store sf o).2 := by
  unfold postDispatch
  rw [hen, hss]
  simp

theorem saveOrder_success_appends (env : Env) (now : String) (sheet : Sheet)
    (sf : Nat → Bool) (o : OrderInput) (sid : String)
    (hsid : env.googleSheetId = some sid) (hen : env.sheetsEnabled ≠ some "false")
    (hs : (saveOrder env now (some sheet) sf o).1.success = true) :
    (saveOrder env now (some sheet) sf o).2 =
      some ((if sheet.isEmpty then [HEADER_ROW] else sheet) ++ [formatOrderRow env now o]) := by
  have hred : saveOrder env now (some sheet) sf o =
      match (withRetry (fun k => if sf k then (.error "Sheets API call failed" : Except String Unit) else .ok ()) 3 1000).1 with
      | .error e => ({ success := false, error := some e }, some sheet)
      | .ok _ =>
          ({ success := true,
             rowNumber := some ((if sheet.isEmpty then [HEADER_ROW] else sheet).length + 1) },
           some ((if sheet.isEmpty then [HEADER_ROW] else sheet) ++ [formatOrderRow env now o])) := by
    unfold saveOrder
    rw [hsid, if_neg hen]
  cases hw : (withRetry (fun k => if sf k then (.error "Sheets API call failed" : Except String Unit) else .ok ()) 3 1000).1 with
  | error e =>
      rw [hred, hw] at hs
      simp at hs
  | ok u =>
      rw [hred, hw]

theorem colA_append_mem (sheet : Sheet) (env : Env) (now : String) (o : OrderInput)
    (htrim : trimString o.clientRequestId = o.clientRequestId) :
    o.clientRequestId ∈
      colA ((if sheet.isEmpty then [HEADER_ROW] else sheet) ++ [formatOrderRow env now o]) := by
  have hlen : 1 ≤ (if sheet.isEmpty then [HEADER_ROW] else sheet).length := by
    split
    · simp
    · rename_i hne
      cases sheet with
      | nil => simp at hne
      | cons a l => simp
  unfold colA
  rw [List.drop_append_of_le_length hlen, List.map_append]
  apply List.mem_append_right
  simp [formatOrderRow, cellText, htrim]

theorem checkDuplicateOrder_mem (env : Env) (sheet : Sheet) (id : String) (sid : String)
    (hsid : env.googleSheetId = some sid) (hen : env.sheetsEnabled ≠ some "false")
    (hmem : id ∈ colA sheet) :
    checkDuplicateOrder env (some sheet) id = true := by
  simp [checkDuplicateOrder, hsid, hen]
  exact hmem

/-! ### Claims -/

/-- Claim C4: `withRetry` with `maxRetries = 3` and `baseDelay = 1000`
invokes the operation at most 4 times; before retry `k` (0-indexed) it
waits `1000 * 2 ^ k` (1000ms, 2000ms, 4000ms) — one fewer delay than calls,
so no wait after the final attempt; if every attempt fails, the surfaced
outcome is that of the last attempt (attempt 3); and the schedule (delays
and call count) depends only on which attempts succeed, never on the error
values — no classification of retryable versus non-retryable errors. -/
theorem C4_withRetry_behavior (ε α : Type) (fn fnB : Nat → Except ε α) :
    (withRetry fn 3 1000).2.2 ≤ 4 ∧
    (withRetry fn 3 1000).2.1 =
      (List.range ((withRetry fn 3 1000).2.2 - 1)).map (fun k => 1000 * 2 ^ k) ∧
    ((∀ k, k ≤ 3 → (fn k).isOk = false) → (withRetry fn 3 1000).1 = fn 3) ∧
    ((∀ k, (fn k).isOk = (fnB k).isOk) →
      (withRetry fn 3 1000).2 = (withRetry fnB 3 1000).2) := by
  refine ⟨retryAux_calls_le fn 1000 3 0, ?_, ?_, ?_⟩
  · rw [withRetry, retryAux_delays fn 1000 3 0]
    apply List.map_congr_left
    intro k _
    rw [Nat.zero_add]
  · intro hall
    have h := retryAux_last_error fn 1000 3 0 (fun k _ hk2 => hall k (by omega))
    simpa using h
  · intro hp
    exact retryAux_failure_pattern fn fnB 1000 hp 3 0

/-- Witness for C4 at a concrete always-failing operation: four calls,
delays 1000/2000/4000, the last error surfaced, and the schedule equal to
that of an operation failing with a different error. -/
theorem C4_witness :
    (withRetry (fun _ => (.error "boom" : Except String Unit)) 3 1000).2.2 ≤ 4 ∧
    (withRetry (fun _ => (.error "boom" : Except String Unit)) 3 1000).1 = .error "boom" ∧
    (withRetry (fun _ => (.error "boom" : Except String Unit)) 3 1000).2 =
      (withRetry (fun _ => (.error "pow" : Except String Unit)) 3 1000).2 := by
  have h := C4_withRetry_behavior String Unit
    (fun _ => (.error "boom" : Except String Unit))
    (fun _ => (.error "pow" : Except String Unit))
  exact ⟨h.1, h.2.2.1 (fun k _ => rfl), h.2.2.2 (fun k => rfl)⟩

/-- Claim C9: the duplicate guard fails open — when the underlying ledger
query throws (store unreachable, modelled by `none`), `checkDuplicateOrder`
returns `false` for every environment and every `clientRequestId`; as a
total function into `Bool` it never throws. -/
theorem C9_checkDuplicateOrder_fails_open (env : Env) (id : String) :
    checkDuplicateOrder env none id = false := by
  cases h : env.googleSheetId with
  | none => simp [checkDuplicateOrder, h]
  | some s =>
      by_cases hd : env.sheetsEnabled = some "false" <;>
        simp [checkDuplicateOrder, h, hd]

/-- Claim C2 (counterexample): `"+213555123456"` and `"0555123456"` are both
accepted by the server-side validator and `"0455123456"` is rejected, but the
two accepted inputs do NOT yield the same normalized phone value: each
validated order carries its raw phone string unchanged. -/
theorem C2_counterexample_distinct_validated_phones :
    (safeValidateOrder "g" sampleBodyIntlPhone).isOk = true ∧
    (safeValidateOrder "g" sampleBody).isOk = true ∧
    (safeValidateOrder "g" sampleBodyBadPhone).isOk = false ∧
    validatedPhone (safeValidateOrder "g" sampleBodyIntlPhone) = some "+213555123456" ∧
    validatedPhone (safeValidateOrder "g" sampleBody) = some "0555123456" ∧
    validatedPhone (safeValidateOrder "g" sampleBodyIntlPhone) ≠
      validatedPhone (safeValidateOrder "g" sampleBody) := by
  decide

/-- Claim C2 (amended): both phone forms are accepted and `"0455123456"` is
rejected, but the server-side validator performs no normalization — for
every accepted input the validated phone equals the submitted string (zod
only applies `.trim()` after the regex), so the two accepted forms yield
distinct values; mapping `+213` to the domestic form happens client-side
before submission. -/
theorem C2_amended_phone_passthrough :
    (∀ (gen : String) (raw : RawOrder) (o : OrderInput),
        safeValidateOrder gen raw = .ok o → o.phone = trimString raw.phone) ∧
    (safeValidateOrder "g" sampleBodyIntlPhone).isOk = true ∧
    (safeValidateOrder "g" sampleBody).isOk = true ∧
    (safeValidateOrder "g" sampleBodyBadPhone).isOk = false := by
  refine ⟨?_, by decide, by decide, by decide⟩
  intro gen raw o h
  unfold safeValidateOrder at h
  split at h
  · cases h; rfl
  · exact Except.noConfusion h

/-- Witness for C2's amended theorem at `sampleBody`. -/
theorem C2_witness :
    sampleOrder.phone = trimString sampleBody.phone :=
  C2_amended_phone_passthrough.1 "g" sampleBody sampleOrder (by rfl)

/-- Claim C3 (counterexample): the input `" a "` (three characters, one
after trimming) is accepted and produces a validated order whose `fullName`
is the single character `"a"` — shorter than 2 characters after trimming. -/
theorem C3_counterexample_short_after_trim :
    (safeValidateOrder "g" sampleBodyShortName).isOk = true ∧
    validatedFullName (safeValidateOrder "g" sampleBodyShortName) = some "a" ∧
    (trimString sampleBodyShortName.fullName).length = 1 := by
  decide

/-- Claim C3 (amended): the 2–100 length bounds are enforced on the raw,
untrimmed `fullName` (the zod chain is `.min(2).max(100).trim()`），and the
stored `fullName` is the trimmed value — its post-trim length may be less
than 2. -/
theorem C3_amended_length_checked_before_trim (gen : String) (raw : RawOrder)
    (o : OrderInput) (h : safeValidateOrder gen raw = .ok o) :
    (2 ≤ raw.fullName.length ∧ raw.fullName.length ≤ 100) ∧
    o.fullName = trimString raw.fullName := by
  unfold safeValidateOrder at h
  split at h
  · rename_i d hdel hiss
    refine ⟨?_, by cases h; rfl⟩
    by_contra hc
    rw [orderIssues] at hiss
    rw [if_neg hc] at hiss
    simp [List.append_eq_nil] at hiss
  · exact Except.noConfusion h

/-- Witness for C3's amended theorem at the `" a "` input. -/
theorem C3_witness :
    (2 ≤ sampleBodyShortName.fullName.length ∧
      sampleBodyShortName.fullName.length ≤ 100) ∧
    sampleOrderShortName.fullName = trimString sampleBodyShortName.fullName :=
  C3_amended_length_checked_before_trim "g" sampleBodyShortName sampleOrderShortName (by rfl)

/-- Claim C5 (counterexample): with `SHEETS_ENABLED = "false"` but
`GOOGLE_SHEET_ID` unset, `saveOrder` does not return success: the sheet-id
guard runs before the disabled-integration short-circuit and returns a
structured failure. -/
theorem C5_counterexample_unset_sheet_id_fails :
    envDisabledNoId.sheetsEnabled = some "false" ∧
    envDisabledNoId.googleSheetId = none ∧
    (saveOrder envDisabledNoId "t" (some []) neverFail sampleOrder).1.success = false ∧
    (saveOrder envDisabledNoId "t" (some []) neverFail sampleOrder).1.error =
      some "GOOGLE_SHEET_ID environment variable is not set" := by
  decide

/-- Claim C5 (amended): whenever `SHEETS_ENABLED` is `"false"` AND
`GOOGLE_SHEET_ID` is set, `saveOrder` returns a success outcome without
performing any write (the store is returned unchanged), for every order,
store state and attempt oracle. -/
theorem C5_amended_disabled_with_sheet_id_noop (env : Env) (now : String)
    (store : Option Sheet) (sheetFails : Nat → Bool) (o : OrderInput) (sid : String)
    (hsid : env.googleSheetId = some sid) (hdis : env.sheetsEnabled = some "false") :
    saveOrder env now store sheetFails o = ({ success := true }, store) := by
  unfold saveOrder
  rw [hsid]
  simp [hdis]

/-- Witness for C5's amended theorem at a concrete disabled-but-configured
environment. -/
theorem C5_witness :
    envDisabledWithId.googleSheetId = some "sheet1" ∧
    envDisabledWithId.sheetsEnabled = some "false" ∧
    saveOrder envDisabledWithId "t" (some []) alwaysFail sampleOrder =
      ({ success := true }, some []) :=
  ⟨rfl, rfl,
    C5_amended_disabled_with_sheet_id_noop envDisabledWithId "t" (some []) alwaysFail
      sampleOrder "sheet1" rfl rfl⟩

/-- Claim C6 (counterexample): on an input without `clientRequestId`, two
runs of validation that draw different fresh UUIDs produce different
validated orders — the `clientRequestId` fields differ. -/
theorem C6_counterexample_fresh_uuid_nondeterminism :
    validatedCid (safeValidateOrder genA sampleBodyNoCid) = some genA ∧
    validatedCid (safeValidateOrder genB sampleBodyNoCid) = some genB ∧
    genA ≠ genB ∧
    validatedCid (safeValidateOrder genA sampleBodyNoCid) ≠
      validatedCid (safeValidateOrder genB sampleBodyNoCid) := by
  decide

/-- Claim C6 (amended): validation is deterministic and free of side
effects up to the fresh-UUID default — for every input that supplies a
`clientRequestId`, the result is independent of the generated UUID, so two
runs agree on the entire validated order. -/
theorem C6_amended_deterministic_given_cid (g1 g2 : String) (raw : RawOrder)
    (cid : String) (h : raw.clientRequestId = some cid) :
    safeValidateOrder g1 raw = safeValidateOrder g2 raw := by
  unfold safeValidateOrder
  simp only [h, Option.getD_some]

/-- Witness for C6's amended theorem at `sampleBody`. -/
theorem C6_witness :
    sampleBody.clientRequestId = some sampleUuid ∧
    safeValidateOrder genA sampleBody = safeValidateOrder genB sampleBody :=
  ⟨rfl, C6_amended_deterministic_given_cid genA genB sampleBody sampleUuid rfl⟩

/-- Claim C8: `calculateTotal` equals the fixed base price (1600) plus the
option's fixed surcharge (800 home, 500 office); and acceptance by the
validator is independent of the submitted `totalPrice` as long as it is
positive and at most the ceiling — the server never recomputes or
cross-checks it against `calculateTotal`. -/
theorem C8_calculateTotal_and_price_not_cross_checked :
    (calculateTotal .office = PRICING.BASE_PRICE + PRICING.DELIVERY_OFFICE ∧
     calculateTotal .home = PRICING.BASE_PRICE + PRICING.DELIVERY_HOME ∧
     PRICING.BASE_PRICE = 1600 ∧ PRICING.DELIVERY_OFFICE = 500 ∧
     PRICING.DELIVERY_HOME = 800) ∧
    (∀ (gen : String) (raw : RawOrder) (p q : Rat),
        0 < p ∧ p ≤ 1000000 → 0 < q ∧ q ≤ 1000000 →
        (safeValidateOrder gen { raw with totalPrice := p }).isOk =
          (safeValidateOrder gen { raw with totalPrice := q }).isOk) := by
  constructor
  · refine ⟨?_, ?_, rfl, rfl, rfl⟩
    · rw [calculateTotal, if_neg (by decide)]
    · rw [calculateTotal, if_pos rfl]
  · intro gen raw p q hp hq
    have hiss : orderIssues { raw with totalPrice := p } =
        orderIssues { raw with totalPrice := q } := by
      rw [orderIssues, orderIssues, if_pos hp, if_pos hq]
    unfold safeValidateOrder
    have hdel : parseDelivery ({ raw with totalPrice := p } : RawOrder).deliveryOption =
        parseDelivery ({ raw with totalPrice := q } : RawOrder).deliveryOption := rfl
    rw [hiss, hdel]
    cases hd : parseDelivery ({ raw with totalPrice := q } : RawOrder).deliveryOption with
    | none => rfl
    | some d =>
        cases hi : orderIssues { raw with totalPrice := q } with
        | nil => rfl
        | cons a l => rfl

/-- Witness for C8 at a totalPrice of 7 DZD, which differs from every value
`calculateTotal` can produce, yet validates exactly like the nominal 2400. -/
theorem C8_witness :
    ((0 : Rat) < 7 ∧ (7 : Rat) ≤ 1000000) ∧
    (safeValidateOrder "g" { sampleBody with totalPrice := 7 }).isOk =
      (safeValidateOrder "g" { sampleBody with totalPrice := 2400 }).isOk :=
  ⟨by decide,
    C8_calculateTotal_and_price_not_cross_checked.2 "g" sampleBody 7 2400
      (by decide) (by decide)⟩

/-- Claim C1 (counterexample): with the notifier administratively disabled,
the ledger enabled, and every ledger attempt failing — so every enabled
integration failed — the handler responds 200 with `sheetSaved = false`,
not 500 as the claim asserts for a single enabled-and-failing integration. -/
theorem C1_counterexample_single_enabled_failure_yields_200 :
    emailEnabledB envSheetsOnly = false ∧
    sheetsEnabledB envSheetsOnly = true ∧
    safeValidateOrder "g" sampleBody = .ok sampleOrder ∧
    checkDuplicateOrder envSheetsOnly (some []) sampleOrder.clientRequestId = false ∧
    sheetFlag envSheetsOnly "t" (some []) alwaysFail sampleOrder = false ∧
    (POST envSheetsOnly "g" "t" (some []) alwaysFail alwaysFail sampleBody).1.status = 200 ∧
    (POST envSheetsOnly "g" "t" (some []) alwaysFail alwaysFail sampleBody).1.status ≠ 500 ∧
    (POST envSheetsOnly "g" "t" (some []) alwaysFail alwaysFail sampleBody).1.sheetSaved = some false ∧
    (POST envSheetsOnly "g" "t" (some []) alwaysFail alwaysFail sampleBody).1.emailSent = some true := by
  refine ⟨by decide, by decide, by rfl, by decide, by decide, by decide, by decide,
    by decide, by decide⟩

/-- Claim C1 (amended): after validation and the duplicate check, with at
least one integration enabled, the handler responds 500 exactly when BOTH
integrations are enabled and both failed; otherwise — at least one enabled
integration succeeded, or an integration is administratively disabled,
including the case where the single enabled integration failed — it
responds 200 carrying the per-integration flags `sheetSaved` and
`emailSent` (a disabled integration's flag is reported `true`). -/
theorem C1_post_500_iff_both_enabled_and_failed
    (env : Env) (gen now : String) (store : Option Sheet)
    (sheetFails emailFails : Nat → Bool) (body : RawOrder) (orderData : OrderInput)
    (hval : safeValidateOrder gen body = .ok orderData)
    (hdup : checkDuplicateOrder env store orderData.clientRequestId = false)
    (hone : sheetsEnabledB env = true ∨ emailEnabledB env = true) :
    ((POST env gen now store sheetFails emailFails body).1.status = 500 ↔
      ((sheetsEnabledB env && !sheetFlag env now store sheetFails orderData) &&
       (emailEnabledB env && !emailFlag env emailFails orderData)) = true) ∧
    (((sheetsEnabledB env && !sheetFlag env now store sheetFails orderData) &&
      (emailEnabledB env && !emailFlag env emailFails orderData)) = false →
      (POST env gen now store sheetFails emailFails body).1.status = 200 ∧
      (POST env gen now store sheetFails emailFails body).1.success = true ∧
      (POST env gen now store sheetFails emailFails body).1.sheetSaved =
        some (sheetFlag env now store sheetFails orderData) ∧
      (POST env gen now store sheetFails emailFails body).1.emailSent =
        some (emailFlag env emailFails orderData)) := by
  have hgate : (!sheetsEnabledB env && !emailEnabledB env) = false := by
    rcases hone with h | h <;> simp [h]
  rw [POST_ok_not_dup env gen now store sheetFails emailFails body orderData hval hdup]
  unfold postDispatch
  rw [hgate]
  cases hb : ((sheetsEnabledB env && !sheetFlag env now store sheetFails orderData) &&
      (emailEnabledB env && !emailFlag env emailFails orderData)) <;> simp [hb]

/-- Witness for C1's amended theorem at the counterexample configuration:
the iff instantiates to the single-enabled-failure case and the handler
returns 200. -/
theorem C1_witness :
    ((POST envSheetsOnly "g" "t" (some []) alwaysFail alwaysFail sampleBody).1.status = 500 ↔
      ((sheetsEnabledB envSheetsOnly &&
          !sheetFlag envSheetsOnly "t" (some []) alwaysFail sampleOrder) &&
       (emailEnabledB envSheetsOnly && !emailFlag envSheetsOnly alwaysFail sampleOrder)) = true) ∧
    (POST envSheetsOnly "g" "t" (some []) alwaysFail alwaysFail sampleBody).1.status = 200 := by
  have h := C1_post_500_iff_both_enabled_and_failed envSheetsOnly "g" "t" (some [])
    alwaysFail alwaysFail sampleBody sampleOrder (by rfl) (by decide) (Or.inl (by decide))
  exact ⟨h.1, (h.2 (by decide)).1⟩

/-- Claim C10: whenever `SHEETS_ENABLED` is `"false"` or `GOOGLE_SHEET_ID`
is unset, `checkDuplicateOrder` returns `false` for every store state and
every id — it short-circuits before any ledger query — and consequently the
orchestrator never responds 409 under such configurations: duplicate
detection is entirely inoperative, not merely best-effort. -/
theorem C10_duplicate_check_inoperative_when_unconfigured
    (env : Env) (store : Option Sheet) (id : String) (gen now : String)
    (sheetFails emailFails : Nat → Bool) (body : RawOrder)
    (h : env.sheetsEnabled = some "false" ∨ env.googleSheetId = none) :
    checkDuplicateOrder env store id = false ∧
    (POST env gen now store sheetFails emailFails body).1.status ≠ 409 := by
  have hcd : ∀ (i : String) (s : Option Sheet), checkDuplicateOrder env s i = false := by
    intro i s
    rcases h with hd | hn
    · cases hg : env.googleSheetId with
      | none => simp [checkDuplicateOrder, hg]
      | some sid => simp [checkDuplicateOrder, hg, hd]
    · simp [checkDuplicateOrder, hn]
  refine ⟨hcd id store, ?_⟩
  unfold POST
  cases hv : safeValidateOrder gen body with
  | error issues => simp
  | ok o =>
      unfold postAfterValidation
      simp only [hcd o.clientRequestId store, Bool.false_eq_true, if_false]
      unfold postDispatch
      split
      · simp
      · split <;> simp

/-- Witness for C10 at a concrete disabled configuration and a valid body. -/
theorem C10_witness :
    (envDisabledWithId.sheetsEnabled = some "false" ∨
      envDisabledWithId.googleSheetId = none) ∧
    checkDuplicateOrder envDisabledWithId (some [[Cell.str sampleUuid]]) sampleUuid = false ∧
    (POST envDisabledWithId "g" "t" (some [[Cell.str sampleUuid]]) neverFail neverFail
      sampleBody).1.status ≠ 409 :=
  ⟨Or.inl rfl,
    (C10_duplicate_check_inoperative_when_unconfigured envDisabledWithId
      (some [[Cell.str sampleUuid]]) sampleUuid "g" "t" neverFail neverFail sampleBody
      (Or.inl rfl)).1,
    (C10_duplicate_check_inoperative_when_unconfigured envDisabledWithId
      (some [[Cell.str sampleUuid]]) sampleUuid "g" "t" neverFail neverFail sampleBody
      (Or.inl rfl)).2⟩

/-- Claim C7: the duplicate guard returns true exactly when a data row of
the ledger carries the queried idempotency token (first column, trimmed);
and in the two-submission scenario — ledger configured, enabled and
reachable, token fresh, first append succeeding — the first submission
yields 200 and resubmitting the same body yields 409 with
`duplicate = true`. -/
theorem C7_second_submission_conflict :
    (∀ (env : Env) (sheet : Sheet) (id sid : String),
        env.googleSheetId = some sid → env.sheetsEnabled ≠ some "false" →
        (checkDuplicateOrder env (some sheet) id = true ↔
          ∃ row ∈ sheet.drop 1, trimString (cellText (row.headD (.str ""))) = id)) ∧
    (∀ (env : Env) (gen now now2 : String) (sheet : Sheet)
        (sf ef sf2 ef2 : Nat → Bool) (body : RawOrder) (orderData : OrderInput)
        (cid sid : String),
        env.googleSheetId = some sid → env.sheetsEnabled ≠ some "false" →
        safeValidateOrder gen body = .ok orderData →
        body.clientRequestId = some cid →
        trimString orderData.clientRequestId = orderData.clientRequestId →
        checkDuplicateOrder env (some sheet) orderData.clientRequestId = false →
        (saveOrder env now (some sheet) sf orderData).1.success = true →
        (POST env gen now (some sheet) sf ef body).1.status = 200 ∧
        (POST env gen now (some sheet) sf ef body).1.success = true ∧
        (POST env gen now2 (POST env gen now (some sheet) sf ef body).2 sf2 ef2 body).1.status = 409 ∧
        (POST env gen now2 (POST env gen now (some sheet) sf ef body).2 sf2 ef2 body).1.duplicate =
          some true) := by
  constructor
  · intro env sheet id sid hsid hen
    simp [checkDuplicateOrder, hsid, hen, colA]
    rw [← List.map_tail]
    exact List.mem_map
  · intro env gen now now2 sheet sf ef sf2 ef2 body orderData cid sid
      hsid hen hval hcid htrim hfresh hsave
    have henB : sheetsEnabledB env = true := (sheetsEnabledB_true_iff env).mpr hen
    have hpost1 : POST env gen now (some sheet) sf ef body =
        postDispatch env now (some sheet) sf ef orderData :=
      POST_ok_not_dup env gen now (some sheet) sf ef body orderData hval hfresh
    have hss : sheetFlag env now (some sheet) sf orderData = true := by
      unfold sheetFlag
      rw [henB]
      simpa using hsave
    obtain ⟨h200, hsucc, hstore⟩ :=
      postDispatch_200_of_sheet_success env now (some sheet) sf ef orderData henB hss
    have happend := saveOrder_success_appends env now sheet sf orderData sid hsid hen hsave
    have hstore1 : (POST env gen now (some sheet) sf ef body).2 =
        some ((if sheet.isEmpty then [HEADER_ROW] else sheet) ++
          [formatOrderRow env now orderData]) := by
      rw [hpost1, hstore]
      exact happend
    have hmem := colA_append_mem sheet env now orderData htrim
    have hdup2 : checkDuplicateOrder env (POST env gen now (some sheet) sf ef body).2
        orderData.clientRequestId = true := by
      rw [hstore1]
      exact checkDuplicateOrder_mem env _ orderData.clientRequestId sid hsid hen hmem
    obtain ⟨h409, hdupf⟩ := POST_409_of_dup env gen now2
      (POST env gen now (some sheet) sf ef body).2 sf2 ef2 body orderData hval hdup2
    exact ⟨by rw [hpost1]; exact h200, by rw [hpost1]; exact hsucc, h409, hdupf⟩

/-- Witness for C7: the guard characterization on a two-row sheet, and the
concrete 200-then-409 scenario starting from an empty reachable ledger. -/
theorem C7_witness :
    (checkDuplicateOrder envBoth (some [[Cell.str "x"], [Cell.str "y"]]) "y" = true ↔
      ∃ row ∈ ([[Cell.str "x"], [Cell.str "y"]] : Sheet).drop 1,
        trimString (cellText (row.headD (.str ""))) = "y") ∧
    (POST envBoth "g" "t" (some []) neverFail neverFail sampleBody).1.status = 200 ∧
    (POST envBoth "g" "t2" (POST envBoth "g" "t" (some []) neverFail neverFail sampleBody).2
      neverFail neverFail sampleBody).1.status = 409 ∧
    (POST envBoth "g" "t2" (POST envBoth "g" "t" (some []) neverFail neverFail sampleBody).2
      neverFail neverFail sampleBody).1.duplicate = some true := by
  have ha := C7_second_submission_conflict.1 envBoth [[Cell.str "x"], [Cell.str "y"]]
    "y" "sheet1" rfl (by decide)
  have hb := C7_second_submission_conflict.2 envBoth "g" "t" "t2" [] neverFail neverFail
    neverFail neverFail sampleBody sampleOrder sampleUuid "sheet1" rfl (by decide) (by rfl)
    rfl (by decide) (by decide) (by decide)
  exact ⟨ha, hb.1, hb.2.2.1, hb.2.2.2⟩

end BS
